import Mathlib

/-!
Verification development for the VerificationGameAPI repository.

The repository is a small Flask record store (src/api.py: in-memory map,
src/database.py: MySQL functions, src/run.py and src/__init__.py: startup
and package wiring).  This file gives a shallow embedding of the store, the
HTTP handlers of src/api.py, the MySQL-backed functions of src/database.py,
and the module-level import structure of the package, and proves or refutes
the frozen claims about them.

Modelling conventions:
  - Python strings are Lean `String`s; string algorithms are written over
    `List Char` so that concrete instances reduce in the kernel.
  - Instants are unnormalized fractions (`Frac`, value num/den, den > 0 by
    construction) of Unix seconds; Python `float` rounding to binary64 and
    `datetime`'s microsecond truncation are idealized away (no claim depends
    on sub-second precision).
  - A Python `datetime` is `PyDatetime`: a value plus an `aware` flag.
    Ordering two datetimes whose `aware` flags differ raises `TypeError` in
    Python; `dtGt` models this by returning `none`.
-/

namespace VGA

/-- True for an ASCII decimal digit. -/
def isDig (c : Char) : Bool := 48 ≤ c.toNat && c.toNat ≤ 57

/-- Lowercase one character; models Python `str.lower` restricted to ASCII
(all usernames in the claims are ASCII). -/
def charLower (c : Char) : Char :=
  if 65 ≤ c.toNat && c.toNat ≤ 90 then Char.ofNat (c.toNat + 32) else c

/-- Lowercase transform of a string: models the `.lower()` calls of
src/api.py (lines 56, 85, 122, 177). -/
def pyLower (s : String) : String := ⟨s.data.map charLower⟩

/-- Models `s.replace('Z', '+00:00')` of src/api.py line 139 (the pattern is
the single character `Z`, and Python `str.replace` replaces every
occurrence). -/
def replaceZList : List Char → List Char
  | [] => []
  | c :: rest =>
      if c = 'Z' then '+' :: '0' :: '0' :: ':' :: '0' :: '0' :: replaceZList rest
      else c :: replaceZList rest

/-- String-level wrapper for `replaceZList`. -/
def pyReplaceZ (s : String) : String := ⟨replaceZList s.data⟩

/-- Numeric value of a digit run (most significant first). -/
def digitsToNat (l : List Char) : Nat := l.foldl (fun a c => 10 * a + (c.toNat - 48)) 0

/-- Exact rational num/den; `den` is positive for every value built in this
file.  Used for instants in Unix seconds. -/
structure Frac where
  num : ℤ
  den : ℕ
deriving DecidableEq

/-- Fraction addition (no normalization). -/
def fadd (a b : Frac) : Frac := ⟨a.num * b.den + b.num * a.den, a.den * b.den⟩

/-- Strict order on fractions by cross multiplication (sound because every
denominator built in this file is positive). -/
def fblt (a b : Frac) : Bool := decide (a.num * (b.den : ℤ) < b.num * (a.den : ℤ))

/-- Embed an integer as a fraction. -/
def fofInt (n : ℤ) : Frac := ⟨n, 1⟩

/-- Multiply a fraction by 10^k (k may be negative). -/
def fmulPow10 (a : Frac) (k : ℤ) : Frac :=
  if 0 ≤ k then ⟨a.num * (10 : ℤ) ^ k.toNat, a.den⟩ else ⟨a.num, a.den * 10 ^ (-k).toNat⟩

/-- ASCII whitespace, as stripped by Python `float`. -/
def isWs (c : Char) : Bool := c = ' ' || c = '\t' || c = '\n' || c = '\r'

/-- Strip leading and trailing whitespace. -/
def trimWs (l : List Char) : List Char :=
  ((l.dropWhile isWs).reverse.dropWhile isWs).reverse

/-- Parse an unsigned digit run that must consume the whole input. -/
def parseAllDigits (l : List Char) : Option ℕ :=
  if l ≠ [] && l.all isDig then some (digitsToNat l) else none

/-- Parse an optionally signed digit run consuming the whole input (the
exponent of a float literal). -/
def parseSignedExp : List Char → Option ℤ
  | '+' :: rest => (parseAllDigits rest).map (fun n => (n : ℤ))
  | '-' :: rest => (parseAllDigits rest).map (fun n => -(n : ℤ))
  | l => (parseAllDigits l).map (fun n => (n : ℤ))

/-- Unsigned core of a Python float literal: `digits[.digits][(e|E)exp]`
with at least one digit in the mantissa. -/
def pyFloatCore (l : List Char) : Option Frac :=
  let ip := l.takeWhile isDig
  let r1 := l.dropWhile isDig
  let fp := match r1 with
    | '.' :: rest => rest.takeWhile isDig
    | _ => []
  let r2 := match r1 with
    | '.' :: rest => rest.dropWhile isDig
    | _ => r1
  if ip = [] && fp = [] then none
  else
    let mant : Frac :=
      ⟨(digitsToNat ip : ℤ) * (10 : ℤ) ^ fp.length + (digitsToNat fp : ℤ), 10 ^ fp.length⟩
    match r2 with
    | [] => some mant
    | c :: rest =>
        if c = 'e' || c = 'E' then (parseSignedExp rest).map (fmulPow10 mant)
        else none

/-- Models Python `float(s)` on finite decimal literals (src/api.py line
135): optional surrounding whitespace, optional sign, decimal mantissa with
optional fraction and exponent.  The `inf`/`nan` spellings and digit
underscores that Python also accepts are outside the model (no record in
the spec or claims uses them). -/
def pyFloat (s : String) : Option Frac :=
  match trimWs s.data with
  | '+' :: rest => pyFloatCore rest
  | '-' :: rest => (pyFloatCore rest).map (fun f => ⟨-f.num, f.den⟩)
  | l => pyFloatCore l

/-- Proleptic-Gregorian day number of a civil date relative to 1970-01-01
(Unix epoch); valid for `1 ≤ y`.  Standard era/year-of-era computation. -/
def daysFromCivil (y m d : Nat) : ℤ :=
  let yy := if m ≤ 2 then y - 1 else y
  let era := yy / 400
  let yoe := yy % 400
  let mp := if 2 < m then m - 3 else m + 9
  let doy := (153 * mp + 2) / 5 + d - 1
  let doe := yoe * 365 + yoe / 4 - yoe / 100 + doy
  (era * 146097 + doe : ℤ) - 719468

/-- Gregorian leap-year test. -/
def isLeap (y : Nat) : Bool := (y % 4 = 0 && y % 100 ≠ 0) || y % 400 = 0

/-- Days in a month of a given year. -/
def daysInMonth (y m : Nat) : Nat :=
  if m = 2 then (if isLeap y then 29 else 28)
  else if m = 4 || m = 6 || m = 9 || m = 11 then 30
  else 31

/-- Parse exactly two digits. -/
def parse2 : List Char → Option (Nat × List Char)
  | a :: b :: rest =>
      if isDig a && isDig b then some (digitsToNat [a, b], rest) else none
  | _ => none

/-- Parse exactly four digits. -/
def parse4 : List Char → Option (Nat × List Char)
  | a :: b :: c :: d :: rest =>
      if isDig a && isDig b && isDig c && isDig d then
        some (digitsToNat [a, b, c, d], rest)
      else none
  | _ => none

/-- A Python `datetime` value: `t` is the instant in Unix seconds (for a
naive value, the wall-clock reading; for an aware value, the UTC instant)
and `aware` records whether the value carries a timezone. -/
structure PyDatetime where
  t : Frac
  aware : Bool
deriving DecidableEq

/-- Split a time-of-day string at the first `+` or `-`, which begins the
UTC-offset part (this is how `fromisoformat` locates the offset). Returns
the time part and, when a sign was found, its sign (true = `+`) and the
remainder after it. -/
def splitOffset : List Char → List Char × Option (Bool × List Char)
  | [] => ([], none)
  | c :: rest =>
      if c = '+' then ([], some (true, rest))
      else if c = '-' then ([], some (false, rest))
      else
        let p := splitOffset rest
        (c :: p.1, p.2)

/-- Parse `HH[:MM[:SS[.fff | .ffffff]]]`, consuming the whole input;
returns seconds-of-day.  The fractional part must be exactly 3 or 6 digits,
as in `datetime.fromisoformat` for the Python versions this code targets. -/
def parseHMS (l : List Char) : Option Frac :=
  match parse2 l with
  | none => none
  | some (h, r1) =>
      if 24 ≤ h then none
      else
        match r1 with
        | [] => some (fofInt (h * 3600))
        | ':' :: r2 =>
            match parse2 r2 with
            | none => none
            | some (mi, r3) =>
                if 60 ≤ mi then none
                else
                  match r3 with
                  | [] => some (fofInt (h * 3600 + mi * 60))
                  | ':' :: r4 =>
                      match parse2 r4 with
                      | none => none
                      | some (s, r5) =>
                          if 60 ≤ s then none
                          else
                            match r5 with
                            | [] => some (fofInt (h * 3600 + mi * 60 + s))
                            | '.' :: r6 =>
                                if r6.all isDig && (r6.length = 3 || r6.length = 6) then
                                  some (fadd (fofInt (h * 3600 + mi * 60 + s))
                                    ⟨(digitsToNat r6 : ℤ), 10 ^ r6.length⟩)
                                else none
                            | _ => none
                  | _ => none
        | _ => none

/-- Parse a UTC offset body `HH:MM` (after the sign), consuming the whole
input; returns the offset magnitude in seconds.  Offsets with a seconds
field, which `fromisoformat` also accepts, are outside the model (no claim
uses one). -/
def parseOffBody (l : List Char) : Option ℤ :=
  match parse2 l with
  | some (oh, ':' :: r) =>
      match parse2 r with
      | some (om, []) => if oh ≤ 23 && om ≤ 59 then some ((oh * 3600 + om * 60 : Nat) : ℤ) else none
      | _ => none
  | _ => none

/-- Models `datetime.fromisoformat` (src/api.py line 139) for the grammar
`YYYY-MM-DD[<sep>HH[:MM[:SS[.fff|.ffffff]]][±HH:MM]]` with full range
validation; any single separator character is accepted at position 10, as
in the Python versions this code targets.  A parsed offset makes the result
timezone-aware. -/
def pyFromIsoformat (s : String) : Option PyDatetime :=
  match parse4 s.data with
  | none => none
  | some (y, r1) =>
      match r1 with
      | '-' :: r2 =>
          match parse2 r2 with
          | none => none
          | some (m, r3) =>
              match r3 with
              | '-' :: r4 =>
                  match parse2 r4 with
                  | none => none
                  | some (d, r5) =>
                      if y < 1 || m < 1 || 12 < m || d < 1 || daysInMonth y m < d then none
                      else
                        let base : ℤ := daysFromCivil y m d * 86400
                        match r5 with
                        | [] => some ⟨fofInt base, false⟩
                        | _ :: r6 =>
                            let p := splitOffset r6
                            match parseHMS p.1 with
                            | none => none
                            | some tod =>
                                match p.2 with
                                | none => some ⟨fadd (fofInt base) tod, false⟩
                                | some (sgn, obody) =>
                                    match parseOffBody obody with
                                    | none => none
                                    | some off =>
                                        let o : ℤ := if sgn then off else -off
                                        some ⟨fadd (fadd (fofInt base) tod) (fofInt (-o)), true⟩
              | _ => none
      | _ => none

/-- Read-time environment: `now` is the current Unix instant and `off` the
local UTC offset in seconds (`datetime.now` and `datetime.fromtimestamp`
both render local wall-clock time with this offset; a single fixed offset
idealizes DST away — no claim depends on it). -/
structure Env where
  now : Frac
  off : ℤ

/-- Models `datetime.now()`: a naive datetime holding local wall-clock
time. -/
def pyNow (env : Env) : PyDatetime := ⟨fadd env.now (fofInt env.off), false⟩

/-- Models `datetime.fromtimestamp(x)`: local wall-clock time of Unix
instant `x`, naive.  Range overflow for astronomically large values is
outside the model. -/
def pyFromtimestamp (env : Env) (x : Frac) : PyDatetime := ⟨fadd x (fofInt env.off), false⟩

/-- Models Python `>` on datetimes: comparing a naive with an aware value
raises `TypeError`, modelled as `none`. -/
def dtGt (a b : PyDatetime) : Option Bool :=
  if a.aware = b.aware then some (fblt b.t a.t) else none

/-- A stored verification record: the value side of the `verifications`
dict of src/api.py (line 13). -/
structure Record where
  robloxUsername : String
  robloxID : String
  discordUsername : String
  discordID : String
  timeToVerify : String
  joinedGame : Bool
deriving DecidableEq

/-- The in-memory store: the `verifications` dict, as an insertion-ordered
association list with unique keys (Python dict semantics). -/
abbrev Store := List (String × Record)

/-- Dict member lookup (`verifications[k]` / `k in verifications`). -/
def dictLookup : Store → String → Option Record
  | [], _ => none
  | (k', r) :: rest, k => if k' = k then some r else dictLookup rest k

/-- Dict membership test (`k in verifications`). -/
def dictContains (s : Store) (k : String) : Bool := (dictLookup s k).isSome

/-- Dict assignment (`verifications[k] = r`): replaces in place when the
key is present, appends otherwise. -/
def dictInsert : Store → String → Record → Store
  | [], k, r => [(k, r)]
  | (k', r') :: rest, k, r =>
      if k' = k then (k, r) :: rest else (k', r') :: dictInsert rest k r

/-- Dict deletion (`del verifications[k]`). -/
def dictErase : Store → String → Store
  | [], _ => []
  | (k', r') :: rest, k =>
      if k' = k then dictErase rest k else (k', r') :: dictErase rest k

/-- In-place mutation `verifications[k]['joinedGame'] = b` (src/api.py line
59). -/
def setJoined : Store → String → Bool → Store
  | [], _, _ => []
  | (k', r) :: rest, k, b =>
      if k' = k then (k', { r with joinedGame := b }) :: setJoined rest k b
      else (k', r) :: setJoined rest k b

/-- A JSON value appearing in a response body. -/
inductive JVal where
  | str : String → JVal
  | bool : Bool → JVal
deriving DecidableEq

/-- A JSON response of the API: the `returnCode`, the `response` message,
and the extra echoed fields (the HTTP status always mirrors
`returnCode`). -/
structure Resp where
  returnCode : Nat
  response : String
  body : List (String × JVal)
deriving DecidableEq

/-- Field access on a response body. -/
def respField : List (String × JVal) → String → Option JVal
  | [], _ => none
  | (k', v) :: rest, k => if k' = k then some v else respField rest k

/-- The not-found response built at the miss branch of `get_verification`
(src/api.py lines 125-128). -/
def fetchMissResp : Resp := ⟨404, "Unable to fetch user details", []⟩

/-- The not-found response built at the expired-and-deleted branch of
`get_verification` (src/api.py lines 146-149). -/
def fetchExpiredResp : Resp := ⟨404, "Unable to fetch user details", []⟩

/-- The not-found response of the joinedGame-only branch of
`create_verification` (src/api.py lines 67-70). -/
def jgMissResp : Resp := ⟨404, "Unable to fetch user details", []⟩

/-- The success response of the joinedGame-only branch (src/api.py lines
60-65), echoing the username as supplied. -/
def jgUpdatedResp (u : String) (b : Bool) : Resp :=
  ⟨200, "joinedGame updated successfully",
    [("robloxUsername", .str u), ("joinedGame", .bool b)]⟩

/-- The validation-failure response (src/api.py lines 76-79); the message
is the f-string naming the missing field. -/
def missingResp (f : String) : Resp :=
  ⟨400, "Missing required field: " ++ f, []⟩

/-- The success response of a full upsert (src/api.py lines 95-104). -/
def createdResp (u rid du did ttv : String) (jg : Bool) : Resp :=
  ⟨201, "Verification data created/updated successfully",
    [("robloxUsername", .str u), ("robloxID", .str rid),
     ("discordUsername", .str du), ("discordID", .str did),
     ("timeToVerify", .str ttv), ("joinedGame", .bool jg)]⟩

/-- The success response of `get_verification` (src/api.py lines
152-161). -/
def okResp (v : Record) : Resp :=
  ⟨200, "Success",
    [("robloxUsername", .str v.robloxUsername), ("robloxID", .str v.robloxID),
     ("discordUsername", .str v.discordUsername), ("discordID", .str v.discordID),
     ("timeToVerify", .str v.timeToVerify), ("joinedGame", .bool v.joinedGame)]⟩

/-- The 500 response produced when the naive/aware `TypeError` of the
expiry comparison reaches the outer handler of `get_verification`
(src/api.py lines 163-167); the Python exception text is abbreviated to
its class name. -/
def typeErrorResp : Resp := ⟨500, "Internal server error: TypeError", []⟩

/-- The 500 response of the (unreachable) `KeyError` path of
`create_verification`'s outer handler (src/api.py lines 106-110). -/
def keyErrorResp : Resp := ⟨500, "Internal server error: KeyError", []⟩

/-- The success response of `delete_verification` (src/api.py lines
181-184). -/
def deleteOkResp (u : String) : Resp :=
  ⟨200, "Verification data for " ++ u ++ " deleted successfully", []⟩

/-- The miss response of `delete_verification` (src/api.py lines
186-189). -/
def deleteMissResp : Resp := ⟨404, "Unable to fetch user details", []⟩

/-- A POST request body: a JSON object whose members other than
`joinedGame` are strings, with the optional boolean `joinedGame` member
held apart (JSON object keys are unique, and `joinedGame` never also
occurs among the string members). -/
structure ReqData where
  fields : List (String × String)
  joinedGame : Option Bool

/-- Lookup among the string-valued members. -/
def lookupKey : List (String × String) → String → Option String
  | [], _ => none
  | (k', v) :: rest, k => if k' = k then some v else lookupKey rest k

/-- Membership test `f in data` for a string-valued member name. -/
def hasKey (data : ReqData) (f : String) : Bool := (lookupKey data.fields f).isSome

/-- Models `len(data)`: number of members of the JSON object. -/
def reqLen (data : ReqData) : Nat :=
  data.fields.length + (match data.joinedGame with | some _ => 1 | none => 0)

/-- The `required_fields` list of src/api.py line 73, in source order. -/
def requiredFields : List String :=
  ["robloxUsername", "robloxID", "discordUsername", "discordID", "timeToVerify"]

/-- First required field absent from the request (the validation loop of
src/api.py lines 74-79 returns at the first miss). -/
def firstMissing (data : ReqData) : Option String :=
  requiredFields.find? (fun f => !(hasKey data f))

/-- The full-upsert tail of `create_verification` (src/api.py lines
72-104): validate presence of the five required fields, then store the
record under the lowercased username and echo all six fields with 201.
The unreachable `KeyError` fallback models the outer exception handler. -/
def fullUpsert (data : ReqData) (store : Store) : Resp × Store :=
  match firstMissing data with
  | some f => (missingResp f, store)
  | none =>
      match lookupKey data.fields "robloxUsername", lookupKey data.fields "robloxID",
            lookupKey data.fields "discordUsername", lookupKey data.fields "discordID",
            lookupKey data.fields "timeToVerify" with
      | some u, some rid, some du, some did, some ttv =>
          let jg := data.joinedGame.getD false
          (createdResp u rid du did ttv jg,
           dictInsert store (pyLower u) ⟨u, rid, du, did, ttv, jg⟩)
      | _, _, _, _, _ => (keyErrorResp, store)

/-- The POST handler `create_verification` of src/api.py (lines 37-110).
The joinedGame-only branch fires exactly when the body contains
`joinedGame`, has exactly two members, and contains `robloxUsername`
(line 55); otherwise the full-upsert tail runs. -/
def create_verification (data : ReqData) (store : Store) : Resp × Store :=
  match data.joinedGame, lookupKey data.fields "robloxUsername" with
  | some jg, some u =>
      if reqLen data = 2 then
        if dictContains store (pyLower u) then
          (jgUpdatedResp u jg, setJoined store (pyLower u) jg)
        else (jgMissResp, store)
      else fullUpsert data store
  | _, _ => fullUpsert data store

/-- The expiry-instant computation of `get_verification` (src/api.py lines
132-141): numeric Unix-timestamp parse first, ISO-8601 with `Z` replaced by
`+00:00` second, `None` when both fail. -/
def evalExpiry (env : Env) (ttv : String) : Option PyDatetime :=
  match pyFloat ttv with
  | some x => some (pyFromtimestamp env x)
  | none => pyFromIsoformat (pyReplaceZ ttv)

/-- The GET handler `get_verification` of src/api.py (lines 115-167):
lookup by lowercased username; on a hit, evaluate expiry; a naive/aware
comparison `TypeError` reaches the outer handler (500); a strictly past
instant deletes the record and yields 404; otherwise the record is
returned with 200. -/
def get_verification (store : Store) (username : String) (env : Env) : Resp × Store :=
  match dictLookup store (pyLower username) with
  | none => (fetchMissResp, store)
  | some v =>
      match evalExpiry env v.timeToVerify with
      | some e =>
          match dtGt (pyNow env) e with
          | none => (typeErrorResp, store)
          | some true => (fetchExpiredResp, dictErase store (pyLower username))
          | some false => (okResp v, store)
      | none => (okResp v, store)

/-- The DELETE handler `delete_verification` of src/api.py (lines
172-195). -/
def delete_verification (store : Store) (username : String) : Resp × Store :=
  if dictContains store (pyLower username) then
    (deleteOkResp username, dictErase store (pyLower username))
  else (deleteMissResp, store)

/-- Builds a full-upsert request body (five string members in source order
plus the optional boolean). -/
def mkFull (u rid du did ttv : String) (jg : Option Bool) : ReqData :=
  ⟨[("robloxUsername", u), ("robloxID", rid), ("discordUsername", du),
    ("discordID", did), ("timeToVerify", ttv)], jg⟩

/-- Builds a joinedGame-only request body: exactly the two members
`robloxUsername` and `joinedGame`. -/
def mkJgOnly (u : String) (b : Bool) : ReqData := ⟨[("robloxUsername", u)], some b⟩

/-- Collation equality of the `verifications` MySQL table
(`utf8mb4_unicode_ci`, src/database.py line 74), modelled for ASCII data as
case-insensitive comparison (the accent folding of the full collation is
outside the model; every username in the spec and claims is ASCII). -/
def ciEq (a b : String) : Bool := pyLower a = pyLower b

/-- The MySQL `verifications` table: one row per entry, in insertion order.
The `id` and `created_at` columns are invisible to every query of
src/database.py and are omitted; `joinedGame` is stored as TINYINT and read
back through `bool(...)`, so it is a `Bool` here. -/
abbrev DbTable := List Record

/-- `update_verification` of src/database.py (lines 113-131): updates the
five non-key columns of every row matching the username under the table
collation — the `robloxUsername` column itself is not in the SET list —
and returns `True` unconditionally. -/
def update_verification (t : DbTable) (u rid du did ttv : String) (jg : Bool) :
    Bool × DbTable :=
  (true,
   t.map fun r =>
     if ciEq r.robloxUsername u then
       { r with robloxID := rid, discordUsername := du, discordID := did,
                timeToVerify := ttv, joinedGame := jg }
     else r)

/-- `add_verification` of src/database.py (lines 90-110): INSERT; the
UNIQUE constraint on `robloxUsername` (collation-insensitive) raises
`IntegrityError` when a matching row exists, upon which
`update_verification` runs instead. -/
def add_verification (t : DbTable) (u rid du did ttv : String) (jg : Bool) :
    Bool × DbTable :=
  if t.any (fun r => ciEq r.robloxUsername u) then
    update_verification t u rid du did ttv jg
  else (true, t ++ [⟨u, rid, du, did, ttv, jg⟩])

/-- `update_joined_game` of src/database.py (lines 160-178): UPDATE of the
`joinedGame` column for rows matching the username; `cursor.rowcount` under
pymysql's default connection flags counts only rows whose stored value
actually changed, and the function returns `rowcount > 0`. -/
def update_joined_game (t : DbTable) (u : String) (jg : Bool) : Bool × DbTable :=
  (decide (0 < t.countP (fun r => ciEq r.robloxUsername u && r.joinedGame ≠ jg)),
   t.map fun r => if ciEq r.robloxUsername u then { r with joinedGame := jg } else r)

/-- `get_verification_by_username` of src/database.py (lines 134-157):
first row matching the username under the table collation, projected to
the six record fields. -/
def get_verification_by_username (t : DbTable) (u : String) : Option Record :=
  t.find? (fun r => ciEq r.robloxUsername u)

/-- `delete_verification_by_username` of src/database.py (lines 181-195):
DELETE of the matching rows, returning `rowcount > 0`. -/
def delete_verification_by_username (t : DbTable) (u : String) : Bool × DbTable :=
  (t.any (fun r => ciEq r.robloxUsername u),
   t.filter (fun r => !(ciEq r.robloxUsername u)))

/-- The names bound at module top level by src/api.py: its three import
statements (line 5-7) and its eleven module-level definitions.  The
`if __name__` guard at line 241 binds `os` only when the file runs as a
script, not on import. -/
def apiModuleNames : List String :=
  ["Flask", "request", "jsonify", "wraps", "datetime",
   "app", "verifications", "API_KEY", "require_api_key", "create_verification",
   "get_verification", "delete_verification", "root", "health_check",
   "not_found", "method_not_allowed"]

/-- The names bound at module top level by src/database.py. -/
def databaseModuleNames : List String :=
  ["pymysql", "os", "datetime", "Optional", "Dict", "Any", "urlparse",
   "get_db_config", "init_database", "get_connection", "add_verification",
   "update_verification", "get_verification_by_username", "update_joined_game",
   "delete_verification_by_username", "check_and_delete_expired"]

/-- The names requested by `from api import app, init_database` in
src/run.py line 5. -/
def runImportList : List String := ["app", "init_database"]

/-- The names requested by `from .api import app, init_database` in
src/__init__.py line 5. -/
def pkgInitImportList : List String := ["app", "init_database"]

/-- Python `from M import a, b, ...`: the error raised at the first
requested name the module does not bind, or `none` when the import
succeeds. -/
def importError (moduleNames requested : List String) : Option String :=
  (requested.find? (fun n => !(moduleNames.contains n))).map
    (fun n => "ImportError: cannot import name " ++ n)

/-- The startup script src/run.py: the import statement at line 5 executes
before anything else, so its failure (`some` message) means the process
dies before `init_database()` or `app.run(...)` is reached; `none` would
mean startup proceeds to serve requests. -/
def runStartup : Option String := importError apiModuleNames runImportList

/-- Holds when the expiry evaluation of `get_verification` leaves a record
in place with a 200: parsing failed, or it produced an instant the naive
comparison finds not strictly past. -/
def expiryOk (env : Env) (ttv : String) : Bool :=
  match evalExpiry env ttv with
  | none => true
  | some e =>
      match dtGt (pyNow env) e with
      | some false => true
      | _ => false

/-- The shape test of src/api.py line 55 selecting the joinedGame-only
branch: `joinedGame` present, exactly two members, `robloxUsername`
present. -/
def jgOnlyShape (data : ReqData) : Bool :=
  data.joinedGame.isSome && decide (reqLen data = 2) && hasKey data "robloxUsername"

/-- View of a database table as an in-memory store: every row keyed by its
lowercased username (the correspondence under which the two backends are
compared). -/
def memOf (t : DbTable) : Store := t.map (fun r => (pyLower r.robloxUsername, r))

theorem dictLookup_insert (s : Store) (k k' : String) (r : Record) :
    dictLookup (dictInsert s k r) k' = if k = k' then some r else dictLookup s k' := by
  induction s with
  | nil => simp [dictInsert, dictLookup]
  | cons hd tl ih =>
      obtain ⟨a, b⟩ := hd
      by_cases h1 : a = k
      · subst h1
        by_cases h2 : a = k'
        · subst h2; simp [dictInsert, dictLookup]
        · simp [dictInsert, dictLookup, h2]
      · by_cases h2 : a = k'
        · subst h2
          have hka : ¬k = a := fun e => h1 e.symm
          simp [dictInsert, dictLookup, h1, hka]
        · simp [dictInsert, dictLookup, h1, h2, ih]

theorem dictLookup_erase (s : Store) (k k' : String) :
    dictLookup (dictErase s k) k' = if k = k' then none else dictLookup s k' := by
  induction s with
  | nil => simp [dictErase, dictLookup]
  | cons hd tl ih =>
      obtain ⟨a, b⟩ := hd
      by_cases h1 : a = k
      · subst h1
        by_cases h2 : a = k'
        · subst h2; simp [dictErase, dictLookup, ih]
        · simp [dictErase, dictLookup, h2, ih]
      · by_cases h2 : a = k'
        · subst h2
          have hka : ¬k = a := fun e => h1 e.symm
          simp [dictErase, dictLookup, h1, hka]
        · simp [dictErase, dictLookup, h1, h2, ih]

theorem dictLookup_setJoined (s : Store) (k k' : String) (b : Bool) :
    dictLookup (setJoined s k b) k' =
      if k = k' then (dictLookup s k').map (fun r => { r with joinedGame := b })
      else dictLookup s k' := by
  induction s with
  | nil => simp [setJoined, dictLookup]
  | cons hd tl ih =>
      obtain ⟨a, r⟩ := hd
      by_cases h1 : a = k
      · subst h1
        by_cases h2 : a = k'
        · subst h2; simp [setJoined, dictLookup]
        · simp [setJoined, dictLookup, h2, ih]
      · by_cases h2 : a = k'
        · subst h2
          have hka : ¬k = a := fun e => h1 e.symm
          simp [setJoined, dictLookup, h1, hka]
        · simp [setJoined, dictLookup, h1, h2, ih]

theorem dictInsert_insert (s : Store) (k : String) (a b : Record) :
    dictInsert (dictInsert s k a) k b = dictInsert s k b := by
  induction s with
  | nil => simp [dictInsert]
  | cons hd tl ih =>
      obtain ⟨a', r'⟩ := hd
      by_cases h : a' = k
      · subst h; simp [dictInsert]
      · simp [dictInsert, h, ih]

theorem create_mkFull (store : Store) (u rid du did ttv : String) (jg : Option Bool) :
    create_verification (mkFull u rid du did ttv jg) store =
      (createdResp u rid du did ttv (jg.getD false),
       dictInsert store (pyLower u) ⟨u, rid, du, did, ttv, jg.getD false⟩) := by
  cases jg <;>
    simp [create_verification, mkFull, fullUpsert, firstMissing, requiredFields,
      hasKey, lookupKey, reqLen]

theorem create_mkJgOnly (store : Store) (u : String) (b : Bool) :
    create_verification (mkJgOnly u b) store =
      if dictContains store (pyLower u) then
        (jgUpdatedResp u b, setJoined store (pyLower u) b)
      else (jgMissResp, store) := by
  simp [create_verification, mkJgOnly, lookupKey, reqLen]

theorem create_of_notJgOnly (store : Store) (data : ReqData)
    (hshape : jgOnlyShape data = false) :
    create_verification data store = fullUpsert data store := by
  cases hjg : data.joinedGame with
  | none => simp [create_verification, hjg]
  | some jg =>
      cases hrk : lookupKey data.fields "robloxUsername" with
      | none => simp [create_verification, hjg, hrk]
      | some u =>
          have hlen : ¬reqLen data = 2 := by
            simp [jgOnlyShape, hjg, hasKey, hrk] at hshape
            exact hshape
          simp [create_verification, hjg, hrk, hlen]

theorem fullUpsert_missing (store : Store) (data : ReqData) (f : String)
    (hmiss : firstMissing data = some f) :
    fullUpsert data store = (missingResp f, store) := by
  simp [fullUpsert, hmiss]

theorem get_hit_ok (store : Store) (u : String) (env : Env) (v : Record)
    (hmem : dictLookup store (pyLower u) = some v)
    (hok : expiryOk env v.timeToVerify = true) :
    get_verification store u env = (okResp v, store) := by
  rcases h : evalExpiry env v.timeToVerify with _ | e
  · simp [get_verification, hmem, h]
  · rcases hgt : dtGt (pyNow env) e with _ | b
    · simp [expiryOk, h, hgt] at hok
    · cases b
      · simp [get_verification, hmem, h, hgt]
      · simp [expiryOk, h, hgt] at hok

theorem lookup_memOf (t : DbTable) (w : String) :
    dictLookup (memOf t) (pyLower w) = t.find? (fun r => ciEq r.robloxUsername w) := by
  induction t with
  | nil => simp [memOf, dictLookup]
  | cons r rest ih =>
      by_cases h : pyLower r.robloxUsername = pyLower w
      · simp [memOf, dictLookup, List.find?, ciEq, h]
      · simp [memOf, dictLookup, List.find?, ciEq, h] at ih ⊢
        exact ih

theorem contains_memOf (t : DbTable) (u : String) :
    dictContains (memOf t) (pyLower u) = t.any (fun r => ciEq r.robloxUsername u) := by
  rw [dictContains, lookup_memOf]
  induction t with
  | nil => simp
  | cons r rest ih =>
      by_cases h : ciEq r.robloxUsername u = true
      · simp [List.find?, List.any, h]
      · simp only [Bool.not_eq_true] at h
        simp [List.find?, List.any, h, ih]

theorem erase_memOf (t : DbTable) (u : String) :
    dictErase (memOf t) (pyLower u) =
      memOf (t.filter (fun r => !(ciEq r.robloxUsername u))) := by
  induction t with
  | nil => simp [memOf, dictErase]
  | cons r rest ih =>
      by_cases h : pyLower r.robloxUsername = pyLower u
      · simp [memOf, dictErase, List.filter, ciEq, h] at ih ⊢
        exact ih
      · simp [memOf, dictErase, List.filter, ciEq, h] at ih ⊢
        exact ih

/-- C1: the claim says every stored record whose timeToVerify parses by
the two-stage rule to an instant strictly before now is deleted by Fetch
with a 404.  Evaluation at the failing input: the record's timestamp
`2000-01-01T00:00:00Z` parses at stage two to the aware instant 946684800
(2000-01-01 UTC), strictly before the read time 1700000000 (2023), yet
`get_verification` returns the 500 TypeError response and leaves the
record in the store — the naive `datetime.now()` cannot be ordered against
the aware parsed instant, and the exception reaches the outer handler
instead of the delete branch. -/
theorem c1_expired_aware_iso_gives_500_and_keeps_record :
    get_verification
        [("bob", ⟨"Bob", "100", "bob.disc", "200", "2000-01-01T00:00:00Z", false⟩)]
        "bob" ⟨⟨1700000000, 1⟩, 0⟩ =
      (typeErrorResp,
       [("bob", ⟨"Bob", "100", "bob.disc", "200", "2000-01-01T00:00:00Z", false⟩)])
    ∧ typeErrorResp.returnCode = 500
    ∧ pyFloat "2000-01-01T00:00:00Z" = none
    ∧ pyFromIsoformat (pyReplaceZ "2000-01-01T00:00:00Z") = some ⟨⟨946684800, 1⟩, true⟩
    ∧ fblt ⟨946684800, 1⟩ (fadd ⟨1700000000, 1⟩ (fofInt 0)) = true := by decide

/-- C2: after a full upsert of username `u`, the record sits under the
lowercase key, a fetch of any casing variant `v` of `u` (not expired at
read time) returns that record with 200 and leaves the store unchanged,
and the echoed robloxUsername is the original-case `u`. -/
theorem c2_key_normalization (store : Store) (u v rid du did ttv : String)
    (jg : Option Bool) (env : Env)
    (hcase : pyLower v = pyLower u)
    (hok : expiryOk env ttv = true) :
    dictLookup (create_verification (mkFull u rid du did ttv jg) store).2 (pyLower u) =
      some ⟨u, rid, du, did, ttv, jg.getD false⟩
    ∧ get_verification (create_verification (mkFull u rid du did ttv jg) store).2 v env =
        (okResp ⟨u, rid, du, did, ttv, jg.getD false⟩,
         (create_verification (mkFull u rid du did ttv jg) store).2)
    ∧ respField (okResp ⟨u, rid, du, did, ttv, jg.getD false⟩).body "robloxUsername" =
        some (.str u) := by
  have hlook : dictLookup (create_verification (mkFull u rid du did ttv jg) store).2
      (pyLower u) = some ⟨u, rid, du, did, ttv, jg.getD false⟩ := by
    rw [create_mkFull, dictLookup_insert]
    simp
  refine ⟨hlook, ?_, ?_⟩
  · exact get_hit_ok _ v env _ (by rw [hcase]; exact hlook) hok
  · simp [okResp, respField]

/-- Witness for C2 at `Upsert("Alice", ...)` then `Fetch("ALICE")`. -/
theorem c2_witness :
    dictLookup (create_verification (mkFull "Alice" "1" "alice.d" "2" "not-a-time" none) []).2
      (pyLower "Alice") = some ⟨"Alice", "1", "alice.d", "2", "not-a-time", false⟩
    ∧ get_verification
        (create_verification (mkFull "Alice" "1" "alice.d" "2" "not-a-time" none) []).2
        "ALICE" ⟨⟨0, 1⟩, 0⟩ =
        (okResp ⟨"Alice", "1", "alice.d", "2", "not-a-time", false⟩,
         (create_verification (mkFull "Alice" "1" "alice.d" "2" "not-a-time" none) []).2)
    ∧ respField (okResp ⟨"Alice", "1", "alice.d", "2", "not-a-time", false⟩).body
        "robloxUsername" = some (.str "Alice") :=
  c2_key_normalization [] "Alice" "ALICE" "1" "alice.d" "2" "not-a-time" none
    ⟨⟨0, 1⟩, 0⟩ (by decide) (by decide)

/-- C3: a second full upsert under the same normalized key fully replaces
the record — the store afterwards equals a single insert of B's values, so
no field of A survives — and the operation answers 201 echoing all six
fields (the existing-key case is the ordinary update branch, not an
error). -/
theorem c3_upsert_override (store : Store) (u1 rid1 du1 did1 ttv1 : String)
    (jg1 : Option Bool) (u2 rid2 du2 did2 ttv2 : String) (jg2 : Option Bool)
    (hkey : pyLower u2 = pyLower u1) :
    create_verification (mkFull u2 rid2 du2 did2 ttv2 jg2)
        (create_verification (mkFull u1 rid1 du1 did1 ttv1 jg1) store).2 =
      (createdResp u2 rid2 du2 did2 ttv2 (jg2.getD false),
       dictInsert store (pyLower u1) ⟨u2, rid2, du2, did2, ttv2, jg2.getD false⟩)
    ∧ dictLookup (dictInsert store (pyLower u1) ⟨u2, rid2, du2, did2, ttv2, jg2.getD false⟩)
        (pyLower u1) = some ⟨u2, rid2, du2, did2, ttv2, jg2.getD false⟩
    ∧ (createdResp u2 rid2 du2 did2 ttv2 (jg2.getD false)).returnCode = 201 := by
  refine ⟨?_, ?_, rfl⟩
  · rw [create_mkFull, create_mkFull, hkey, dictInsert_insert]
  · rw [dictLookup_insert]
    simp

/-- Witness for C3: two upserts of `carl` (B in different casing) leave
exactly B's record. -/
theorem c3_witness :
    create_verification (mkFull "CARL" "22" "c2" "33" "later" (some true))
        (create_verification (mkFull "Carl" "11" "c1" "44" "111" none) []).2 =
      (createdResp "CARL" "22" "c2" "33" "later" true,
       dictInsert [] (pyLower "Carl") ⟨"CARL", "22", "c2", "33", "later", true⟩)
    ∧ dictLookup (dictInsert [] (pyLower "Carl") ⟨"CARL", "22", "c2", "33", "later", true⟩)
        (pyLower "Carl") = some ⟨"CARL", "22", "c2", "33", "later", true⟩
    ∧ (createdResp "CARL" "22" "c2" "33" "later" true).returnCode = 201 :=
  c3_upsert_override [] "Carl" "11" "c1" "44" "111" none "CARL" "22" "c2" "33" "later"
    (some true) (by decide)

/-- C4: the claim says a stored future ISO-8601 timestamp with trailing Z
is returned unchanged with 200.  Evaluation at the failing input: the
numeric stage fails, stage two parses `2099-01-01T00:00:00Z` as the aware
instant 4070908800, and `get_verification` answers the 500 TypeError
response (not 200 with the record): the naive-vs-aware comparison raises
before the return branch.  The store is left unchanged. -/
theorem c4_future_aware_iso_gives_500_not_200 :
    get_verification
        [("dana", ⟨"Dana", "300", "dana.disc", "400", "2099-01-01T00:00:00Z", false⟩)]
        "dana" ⟨⟨1700000000, 1⟩, 0⟩ =
      (typeErrorResp,
       [("dana", ⟨"Dana", "300", "dana.disc", "400", "2099-01-01T00:00:00Z", false⟩)])
    ∧ typeErrorResp.returnCode = 500
    ∧ typeErrorResp ≠ okResp ⟨"Dana", "300", "dana.disc", "400", "2099-01-01T00:00:00Z", false⟩
    ∧ pyFloat "2099-01-01T00:00:00Z" = none
    ∧ pyFromIsoformat (pyReplaceZ "2099-01-01T00:00:00Z") =
        some ⟨⟨4070908800, 1⟩, true⟩ := by decide

/-- C5: a stored record whose timeToVerify fails both parse stages is
returned with 200 and the store is untouched (permissive default — no
delete on unparseable timestamps). -/
theorem c5_unparseable_permissive (store : Store) (u : String) (env : Env) (v : Record)
    (hmem : dictLookup store (pyLower u) = some v)
    (h1 : pyFloat v.timeToVerify = none)
    (h2 : pyFromIsoformat (pyReplaceZ v.timeToVerify) = none) :
    get_verification store u env = (okResp v, store) := by
  have h : evalExpiry env v.timeToVerify = none := by simp [evalExpiry, h1, h2]
  simp [get_verification, hmem, h]

/-- Witness for C5 at timeToVerify `not-a-time`. -/
theorem c5_witness :
    get_verification [("carl", ⟨"Carl", "9", "carl.d", "8", "not-a-time", true⟩)]
        "Carl" ⟨⟨123456, 1⟩, 3600⟩ =
      (okResp ⟨"Carl", "9", "carl.d", "8", "not-a-time", true⟩,
       [("carl", ⟨"Carl", "9", "carl.d", "8", "not-a-time", true⟩)]) :=
  c5_unparseable_permissive _ "Carl" _ _ (by decide) (by decide) (by decide)

/-- C6: the joinedGame-only update sets exactly the joinedGame field of the
record under the normalized key — every other field of that record and
every other key of the store are untouched — and answers 404 with the
store unchanged when no record exists. -/
theorem c6_joined_game_isolation (store : Store) (u : String) (b : Bool) :
    create_verification (mkJgOnly u b) store =
      (if dictContains store (pyLower u) then
        (jgUpdatedResp u b, setJoined store (pyLower u) b)
      else (jgMissResp, store))
    ∧ (∀ k, dictLookup (setJoined store (pyLower u) b) k =
        if pyLower u = k then
          (dictLookup store k).map (fun r => { r with joinedGame := b })
        else dictLookup store k)
    ∧ jgMissResp.returnCode = 404 := by
  exact ⟨create_mkJgOnly store u b,
    fun k => dictLookup_setJoined store (pyLower u) k b, rfl⟩

/-- C7 counterexample: a full-upsert payload with all five fields present
but `discordID` empty is, contrary to the claim, accepted: the handler
answers 201 and stores the record (validation checks presence only, never
non-emptiness). -/
theorem c7_counterexample :
    (create_verification (mkFull "Bob" "123" "bob.d" "" "999999" none) []).1.returnCode = 201
    ∧ (create_verification (mkFull "Bob" "123" "bob.d" "" "999999" none) []).2 =
        [("bob", ⟨"Bob", "123", "bob.d", "", "999999", false⟩)]
    ∧ hasKey (mkFull "Bob" "123" "bob.d" "" "999999" none) "discordID" = true := by decide

/-- C7 amended: on a non-joinedGame-only body, absence of a required field
is rejected with 400 naming the first missing field in source order, and
the store is not mutated (presence is the only check). -/
theorem c7_amended_presence_validation (store : Store) (data : ReqData) (f : String)
    (hshape : jgOnlyShape data = false)
    (hmiss : firstMissing data = some f) :
    create_verification data store = (missingResp f, store)
    ∧ (missingResp f).returnCode = 400
    ∧ (missingResp f).response = "Missing required field: " ++ f := by
  refine ⟨?_, rfl, rfl⟩
  rw [create_of_notJgOnly store data hshape, fullUpsert_missing store data f hmiss]

/-- Witness for the amended C7: a body lacking `discordID` is rejected with
the 400 naming it. -/
theorem c7_witness :
    create_verification
        ⟨[("robloxUsername", "Bob"), ("robloxID", "1"), ("discordUsername", "d")], none⟩ [] =
      (missingResp "discordID", [])
    ∧ (missingResp "discordID").returnCode = 400
    ∧ (missingResp "discordID").response = "Missing required field: " ++ "discordID" :=
  c7_amended_presence_validation []
    ⟨[("robloxUsername", "Bob"), ("robloxID", "1"), ("discordUsername", "d")], none⟩
    "discordID" (by decide) (by decide)

/-- C8: a fetch miss (key never present) and a fetch of a record expired at
read time produce equal responses — both the 404 with message "Unable to
fetch user details" — so the caller cannot tell the two causes apart. -/
theorem c8_uniform_not_found (s1 : Store) (u1 : String) (env1 : Env)
    (s2 : Store) (u2 : String) (env2 : Env) (v : Record) (e : PyDatetime)
    (h1 : dictLookup s1 (pyLower u1) = none)
    (h2 : dictLookup s2 (pyLower u2) = some v)
    (h3 : evalExpiry env2 v.timeToVerify = some e)
    (h4 : dtGt (pyNow env2) e = some true) :
    (get_verification s1 u1 env1).1 = (get_verification s2 u2 env2).1
    ∧ (get_verification s1 u1 env1).1 = fetchMissResp
    ∧ (get_verification s2 u2 env2).1 = fetchExpiredResp
    ∧ fetchMissResp = fetchExpiredResp
    ∧ fetchMissResp.returnCode = 404
    ∧ fetchMissResp.response = "Unable to fetch user details" := by
  have g1 : get_verification s1 u1 env1 = (fetchMissResp, s1) := by
    simp [get_verification, h1]
  have g2 : get_verification s2 u2 env2 = (fetchExpiredResp, dictErase s2 (pyLower u2)) := by
    simp [get_verification, h2, h3, h4]
  rw [g1, g2]
  exact ⟨rfl, rfl, rfl, rfl, rfl, rfl⟩

/-- Witness for C8: a never-present key versus a record expired by the
elapsed Unix timestamp 0 read at time 10. -/
theorem c8_witness :
    (get_verification [] "alice" ⟨⟨0, 1⟩, 0⟩).1 =
      (get_verification [("bob", ⟨"Bob", "1", "b", "2", "0", false⟩)] "bob" ⟨⟨10, 1⟩, 0⟩).1
    ∧ (get_verification [] "alice" ⟨⟨0, 1⟩, 0⟩).1 = fetchMissResp
    ∧ (get_verification [("bob", ⟨"Bob", "1", "b", "2", "0", false⟩)] "bob" ⟨⟨10, 1⟩, 0⟩).1 =
        fetchExpiredResp
    ∧ fetchMissResp = fetchExpiredResp
    ∧ fetchMissResp.returnCode = 404
    ∧ fetchMissResp.response = "Unable to fetch user details" :=
  c8_uniform_not_found [] "alice" ⟨⟨0, 1⟩, 0⟩
    [("bob", ⟨"Bob", "1", "b", "2", "0", false⟩)] "bob" ⟨⟨10, 1⟩, 0⟩
    ⟨"Bob", "1", "b", "2", "0", false⟩ ⟨⟨0, 1⟩, false⟩
    (by decide) (by decide) (by decide) (by decide)

/-- C9 counterexample: the two backends do not report update-occurred
identically.  On corresponding states holding `bob` with joinedGame false,
a joinedGame update to false is reported as occurred (200) by the
in-memory handler but as not-occurred (`false`) by the MySQL backend,
whose rowcount counts only rows whose stored value changed. -/
theorem c9_counterexample :
    (create_verification (mkJgOnly "bob" false)
        [("bob", ⟨"bob", "1", "b", "2", "999999", false⟩)]).1.returnCode = 200
    ∧ (update_joined_game [⟨"bob", "1", "b", "2", "999999", false⟩] "bob" false).1 = false
    ∧ memOf [⟨"bob", "1", "b", "2", "999999", false⟩] =
        [("bob", ⟨"bob", "1", "b", "2", "999999", false⟩)] := by decide

/-- C9 amended: viewing a table as the in-memory store keying each row by
its lowercased username, the two backends agree on lookup (for every
username) and on delete (same occurred report, corresponding stores); the
joinedGame-update reporting divergence is the counterexample. -/
theorem c9_amended_lookup_delete_agree (t : DbTable) (u : String) :
    (∀ w, dictLookup (memOf t) (pyLower w) = get_verification_by_username t w)
    ∧ ((delete_verification (memOf t) u).1.returnCode = 200 ↔
        (delete_verification_by_username t u).1 = true)
    ∧ (delete_verification (memOf t) u).2 =
        memOf (delete_verification_by_username t u).2 := by
  have hc := contains_memOf t u
  refine ⟨fun w => lookup_memOf t w, ?_, ?_⟩
  · cases hany : t.any (fun r => ciEq r.robloxUsername u) with
    | true =>
        have hct : dictContains (memOf t) (pyLower u) = true := by rw [hc, hany]
        simp [delete_verification, hct, delete_verification_by_username, hany,
          deleteOkResp]
    | false =>
        have hct : dictContains (memOf t) (pyLower u) = false := by rw [hc, hany]
        simp [delete_verification, hct, delete_verification_by_username, hany,
          deleteMissResp]
  · cases hany : t.any (fun r => ciEq r.robloxUsername u) with
    | true =>
        have hct : dictContains (memOf t) (pyLower u) = true := by rw [hc, hany]
        simp only [delete_verification, hct, if_true, delete_verification_by_username]
        exact erase_memOf t u
    | false =>
        have hct : dictContains (memOf t) (pyLower u) = false := by rw [hc, hany]
        have hfix : t.filter (fun r => !(ciEq r.robloxUsername u)) = t := by
          rw [List.filter_eq_self]
          intro a ha
          rw [List.any_eq_false] at hany
          simp [hany a ha]
        simp only [delete_verification, hct, Bool.false_eq_true, if_false,
          delete_verification_by_username, hfix]

/-- C10: starting the service fails unconditionally before any request is
served: the `from api import app, init_database` of src/run.py (and the
identical import of src/__init__.py) requests a name src/api.py does not
bind — the only `init_database` lives in src/database.py, which api.py
never imports — so the import raises and the MySQL initialization path is
never executed. -/
theorem c10_startup_import_fails :
    runStartup = some "ImportError: cannot import name init_database"
    ∧ importError apiModuleNames pkgInitImportList =
        some "ImportError: cannot import name init_database"
    ∧ apiModuleNames.contains "init_database" = false
    ∧ databaseModuleNames.contains "init_database" = true := by decide

end VGA
